import Mathlib

/-!
Verification development for the rate-limiting and request-admission layer of
the MarketMapping-Analysis-Recruiter repository.

The definitions below are a shallow embedding of:
  * `checkRateLimit`, `verifyTurnstileToken` (the Cloudflare Pages utility
    module exporting them), and
  * the client-side request lock (`getTurnstileToken`, `completeRequest`)
    in `script.js`.
Effectful JavaScript (KV reads/writes, `fetch`, timers) is made explicit:
the outcomes of external calls are parameters, and state is passed
explicitly.  Machine numbers are modelled as `Int` (JS numbers here are
integer epoch seconds and counts, far below 2^53, so no overflow occurs).
-/

/-- Maximum requests per window (`RATE_LIMIT_MAX_REQUESTS = 20`). -/
def RATE_LIMIT_MAX_REQUESTS : Nat := 20

/-- Window size in seconds (`RATE_LIMIT_WINDOW_SECONDS = 60`). -/
def RATE_LIMIT_WINDOW_SECONDS : Int := 60

/-- The decision object returned by `checkRateLimit`.  JavaScript objects
carry only the fields that are assigned, so every field other than
`allowed` is an `Option`, `none` meaning the field is absent. -/
structure Decision where
  allowed : Bool
  error : Option String := none
  retryAfter : Option Int := none
  remaining : Option Int := none
  resetAt : Option Int := none
  deriving Repr, DecidableEq

/-- Outcome of `env.RATE_LIMIT_KV.get(kvKey, {type: json})` together with the
defaulting `existingData?.timestamps || []` performed by the caller:
`ok ts` is a read that yields the timestamp list `ts` (an absent key or a
value without a truthy `timestamps` field yields `ok []` via the default);
`err` is a read that throws, or a malformed value whose truthy non-array
`timestamps` makes the subsequent `.filter` throw. -/
inductive StoreRead where
  | ok (timestamps : List Int)
  | err
  deriving Repr, DecidableEq

/-- What one invocation of `checkRateLimit` returns and writes: `decision` is
the returned object, `written` is `some (ts, ttl)` when
`RATE_LIMIT_KV.put(kvKey, {timestamps: ts}, {expirationTtl: ttl})`
succeeded, `none` when no write happened (reject branch, degraded mode,
or a throwing read/write). -/
structure CheckOutcome where
  decision : Decision
  written : Option (List Int × Int) := none
  deriving Repr, DecidableEq

/-- Shallow embedding of `checkRateLimit(request, env)`.
`kvConfigured` is the truthiness of `env.RATE_LIMIT_KV`; `now` is
`Math.floor(Date.now() / 1000)`; `read` is the outcome of the KV get;
`putThrows` says whether the KV put would throw (the `catch` then applies).
The function is total: no exception propagates to the caller. -/
def checkRateLimit (kvConfigured : Bool) (now : Int) (read : StoreRead)
    (putThrows : Bool) : CheckOutcome :=
  if !kvConfigured then
    { decision := { allowed := true } }
  else
    let windowStart := now - RATE_LIMIT_WINDOW_SECONDS
    match read with
    | .err =>
        { decision := { allowed := true, error := some "Rate limit check failed" } }
    | .ok stored =>
        let timestamps := stored.filter (fun ts => windowStart < ts)
        if timestamps.length ≥ RATE_LIMIT_MAX_REQUESTS then
          let oldestTimestamp := timestamps.headI
          let retryAfter := oldestTimestamp + RATE_LIMIT_WINDOW_SECONDS - now
          { decision :=
              { allowed := false,
                error := some "Rate limit exceeded. Please try again later.",
                retryAfter := some (max 1 retryAfter),
                remaining := some 0 } }
        else
          let newTimestamps := timestamps ++ [now]
          if putThrows then
            { decision := { allowed := true, error := some "Rate limit check failed" } }
          else
            { decision :=
                { allowed := true,
                  remaining := some ((RATE_LIMIT_MAX_REQUESTS : Int) - newTimestamps.length),
                  resetAt := some (now + RATE_LIMIT_WINDOW_SECONDS) },
              written := some (newTimestamps, RATE_LIMIT_WINDOW_SECONDS + 10) }

/-- One step of a sequence of checks by a single identity against a store
that starts as `store` (an absent key reads as `[]`).  KV reads and writes
succeed.  TTL expiry is not applied between steps; in every scenario proved
below each write's TTL (70 s) outlives the whole schedule, so this is exact. -/
def simCheck (store : List Int) (t : Int) : Decision × List Int :=
  let out := checkRateLimit true t (.ok store) false
  (out.decision, match out.written with
    | some (l, _) => l
    | none => store)

/-- Runs `simCheck` over a schedule of check times, collecting decisions. -/
def simRun : List Int → List Int → List Decision × List Int
  | [], store => ([], store)
  | t :: rest, store =>
      let step := simCheck store t
      let next := simRun rest step.2
      (step.1 :: next.1, next.2)

/-- Truthiness test used by the JavaScript guards `if (!token)` and
`if (!secretKey)`: absent (`none`) and the empty string are falsy. -/
def jsFalsy : Option String → Bool
  | none => true
  | some s => s = ""

/-- The result object returned by `verifyTurnstileToken`. -/
structure VerifyResult where
  success : Bool
  error : Option String := none
  deriving Repr, DecidableEq

/-- Outcome of the `fetch` to the Turnstile siteverify endpoint followed by
`response.json()`: `ok success` is a parsed body whose `success` field has
the given truthiness; `err` means the network call or the parse threw. -/
inductive FetchResult where
  | ok (success : Bool)
  | err
  deriving Repr, DecidableEq

/-- Shallow embedding of `verifyTurnstileToken(token, env)`.  `token` is the
request's token header (`none` when absent), `secretKey` is
`env.TURNSTILE_SECRET_KEY`, and `fetch` is the outcome of the external
verification call (consulted only when the code reaches it). -/
def verifyTurnstileToken (token : Option String) (secretKey : Option String)
    (fetch : FetchResult) : VerifyResult :=
  if secretKey = some "SKIP_FOR_LOCAL_DEV" then
    { success := true }
  else if jsFalsy token then
    { success := false, error := some "No Turnstile token provided" }
  else if jsFalsy secretKey then
    { success := false, error := some "Server configuration error" }
  else
    match fetch with
    | .err => { success := false, error := some "Security verification error" }
    | .ok s =>
        if !s then { success := false, error := some "Security verification failed" }
        else { success := true }

/-- The module-level mutable state of `script.js` that the request lock
touches: the cached token `currentTurnstileToken`, the lock holder
`currentRequestId`, and the effect of `setButtonsEnabled`. -/
structure LockState where
  currentTurnstileToken : Option String := none
  currentRequestId : Option String := none
  buttonsEnabled : Bool := true
  deriving Repr, DecidableEq

/-- How the synchronous prefix of `getTurnstileToken()` ends: an immediate
`throw` of the in-progress error (no queueing — the rejected caller gets no
continuation), a `throw` because the widget element is missing, or entry
into the polling wait owning `requestId`. -/
inductive AcquireResult where
  | inProgressError
  | widgetNotFound
  | started (requestId : String)
  deriving Repr, DecidableEq

/-- Shallow embedding of the synchronous prefix of `getTurnstileToken()`
(everything before the returned `Promise`): the in-progress guard, then
generation of a fresh `requestId` (passed in as `freshId`), taking the
lock, disabling buttons, resetting the cached token, and the widget-element
check.  `widgetPresent` is the truthiness of
`document.querySelector('.cf-turnstile')`. -/
def getTurnstileTokenStart (s : LockState) (freshId : String)
    (widgetPresent : Bool) : AcquireResult × LockState :=
  if s.currentRequestId.isSome then
    (.inProgressError, s)
  else
    let s' : LockState :=
      { currentTurnstileToken := none,
        currentRequestId := some freshId,
        buttonsEnabled := false }
    if !widgetPresent then (.widgetNotFound, s')
    else (.started freshId, s')

/-- Poll cap: `maxAttempts = 100` ticks of 100 ms, i.e. 10 seconds. -/
def TURNSTILE_MAX_ATTEMPTS : Nat := 100

/-- How the polling `Promise` settles: `resolve({token, requestId})` or
`reject(new Error(...))` with the message. -/
inductive PollOutcome where
  | resolved (token : String) (requestId : String)
  | rejected (message : String)
  deriving Repr, DecidableEq

/-- Shallow embedding of the `setInterval` polling loop inside
`getTurnstileToken()`.  `tokenAt k` is the value of the global
`currentTurnstileToken` observed at the `k`-th tick (`none` when falsy);
`attempts` is the counter before the tick; `fuel` bounds recursion (the
loop runs at most `TURNSTILE_MAX_ATTEMPTS` ticks, so `fuel =
TURNSTILE_MAX_ATTEMPTS` ticks from `attempts = 0` never exhausts it:
the `fuel = 0` fallback is unreachable). -/
def getTurnstileTokenPoll : Nat → Nat → (Nat → Option String) → String →
    LockState → PollOutcome × LockState
  | 0, _, _, _, s => (.rejected "Turnstile verification timeout", s)
  | fuel + 1, attempts, tokenAt, requestId, s =>
      let attempts' := attempts + 1
      match tokenAt attempts' with
      | some tok => (.resolved tok requestId, s)
      | none =>
          if attempts' ≥ TURNSTILE_MAX_ATTEMPTS then
            if s.currentRequestId = some requestId then
              (.rejected "Turnstile verification timeout",
               { s with currentRequestId := none, buttonsEnabled := true })
            else
              (.rejected "Turnstile verification timeout", s)
          else
            getTurnstileTokenPoll fuel attempts' tokenAt requestId s

/-- Shallow embedding of `completeRequest(requestId)`: releases the lock and
re-enables buttons only when the caller still owns it. -/
def completeRequest (s : LockState) (requestId : String) : LockState :=
  if s.currentRequestId = some requestId then
    { s with currentRequestId := none, buttonsEnabled := true }
  else s

/-- The head of a `≤`-sorted list is a lower bound of the list, so
`timestamps[0]` in the reject branch is the oldest remaining timestamp. -/
theorem headI_le_of_sorted {l : List Int} (hs : List.Sorted (· ≤ ·) l) :
    ∀ x ∈ l, l.headI ≤ x := by
  cases l with
  | nil => simp
  | cons a t =>
      intro x hx
      rcases List.mem_cons.mp hx with h | h
      · simp [List.headI, h]
      · simpa [List.headI] using List.rel_of_sorted_cons hs x h

/-- C1: an admission check whose pruned timestamp count (entries strictly
greater than `now - 60`) is at least `N = 20` rejects with
`retryAfter = max 1 (oldestRemaining + 60 - now)` (the head of the pruned
sorted sequence being its oldest element) and `remaining = 0`, appends
nothing, and writes nothing to the store. -/
theorem checkRateLimit_reject_when_full (now : Int) (stored : List Int)
    (putThrows : Bool) (hsorted : List.Sorted (· ≤ ·) stored)
    (hfull : (stored.filter (fun ts => now - RATE_LIMIT_WINDOW_SECONDS < ts)).length ≥
      RATE_LIMIT_MAX_REQUESTS) :
    (checkRateLimit true now (.ok stored) putThrows).decision.allowed = false ∧
    (checkRateLimit true now (.ok stored) putThrows).decision.retryAfter =
      some (max 1 ((stored.filter (fun ts => now - RATE_LIMIT_WINDOW_SECONDS < ts)).headI +
        RATE_LIMIT_WINDOW_SECONDS - now)) ∧
    (checkRateLimit true now (.ok stored) putThrows).decision.remaining = some 0 ∧
    (∀ x ∈ stored.filter (fun ts => now - RATE_LIMIT_WINDOW_SECONDS < ts),
      (stored.filter (fun ts => now - RATE_LIMIT_WINDOW_SECONDS < ts)).headI ≤ x) ∧
    (checkRateLimit true now (.ok stored) putThrows).written = none := by
  refine ⟨?_, ?_, ?_, headI_le_of_sorted (hsorted.filter _), ?_⟩ <;>
    simp [checkRateLimit, hfull]

/-- Concrete instance of `checkRateLimit_reject_when_full`: 20 stored
timestamps 0..19, checked at `now = 20`. -/
theorem checkRateLimit_reject_when_full_witness :
    (checkRateLimit true 20
        (.ok ((List.range 20).map (fun n => (n : Int)))) false).decision.retryAfter =
      some 40 := by
  have h := checkRateLimit_reject_when_full 20
    ((List.range 20).map (fun n => (n : Int))) false (by decide) (by decide)
  rw [h.2.1]
  decide

/-- C2: with a configured store and a successful read, the stored sequence is
pruned by dropping every timestamp `≤ now - 60`; when the pruned count is
below `N = 20` the check appends `now`, persists the pruned sequence plus
`now` with TTL `70 = 60 + 10`, and admits with `remaining = 20 - newCount`
and `resetAt = now + 60`. -/
theorem checkRateLimit_admit_below_limit (now : Int) (stored : List Int)
    (hbelow : (stored.filter (fun ts => now - RATE_LIMIT_WINDOW_SECONDS < ts)).length <
      RATE_LIMIT_MAX_REQUESTS) :
    (checkRateLimit true now (.ok stored) false).decision.allowed = true ∧
    (checkRateLimit true now (.ok stored) false).decision.remaining =
      some ((RATE_LIMIT_MAX_REQUESTS : Int) -
        ((stored.filter (fun ts => now - RATE_LIMIT_WINDOW_SECONDS < ts)).length + 1)) ∧
    (checkRateLimit true now (.ok stored) false).decision.resetAt =
      some (now + RATE_LIMIT_WINDOW_SECONDS) ∧
    (checkRateLimit true now (.ok stored) false).written =
      some (stored.filter (fun ts => now - RATE_LIMIT_WINDOW_SECONDS < ts) ++ [now],
        RATE_LIMIT_WINDOW_SECONDS + 10) := by
  have hnot : ¬ (stored.filter (fun ts => now - RATE_LIMIT_WINDOW_SECONDS < ts)).length ≥
      RATE_LIMIT_MAX_REQUESTS := by omega
  refine ⟨?_, ?_, ?_, ?_⟩ <;> simp [checkRateLimit, hnot]

/-- Concrete instance of `checkRateLimit_admit_below_limit`: two live stored
timestamps, checked at `now = 100`. -/
theorem checkRateLimit_admit_below_limit_witness :
    (checkRateLimit true 100 (.ok [50, 90]) false).decision.remaining = some 17 ∧
    (checkRateLimit true 100 (.ok [50, 90]) false).written = some ([50, 90, 100], 70) := by
  have h := checkRateLimit_admit_below_limit 100 [50, 90] (by decide)
  exact ⟨by rw [h.2.1]; decide, by rw [h.2.2.2]; decide⟩

/-- C10: every timestamp sequence `checkRateLimit` writes to the store has
length at most `N = 20`: the append happens only when the pruned count is
strictly below 20, and the reject branch writes nothing. -/
theorem checkRateLimit_written_bounded (kvConfigured : Bool) (now : Int)
    (read : StoreRead) (putThrows : Bool) (l : List Int) (ttl : Int)
    (hw : (checkRateLimit kvConfigured now read putThrows).written = some (l, ttl)) :
    l.length ≤ RATE_LIMIT_MAX_REQUESTS := by
  cases kvConfigured with
  | false => simp [checkRateLimit] at hw
  | true =>
      cases read with
      | err => simp [checkRateLimit] at hw
      | ok stored =>
          by_cases hlen : (stored.filter
              (fun ts => now - RATE_LIMIT_WINDOW_SECONDS < ts)).length ≥
              RATE_LIMIT_MAX_REQUESTS
          · simp [checkRateLimit, hlen] at hw
          · cases putThrows with
            | true => simp [checkRateLimit, hlen] at hw
            | false =>
                have hrun : (checkRateLimit true now (.ok stored) false).written =
                    some (stored.filter (fun ts => now - RATE_LIMIT_WINDOW_SECONDS < ts) ++
                      [now], RATE_LIMIT_WINDOW_SECONDS + 10) := by
                  simp [checkRateLimit, hlen]
                rw [hrun] at hw
                have hpair := Option.some.inj hw
                have hl : stored.filter (fun ts => now - RATE_LIMIT_WINDOW_SECONDS < ts) ++
                    [now] = l := congrArg Prod.fst hpair
                rw [← hl]
                simp only [List.length_append, List.length_singleton]
                unfold RATE_LIMIT_MAX_REQUESTS at hlen ⊢
                omega

/-- Concrete instance of `checkRateLimit_written_bounded`: a first request
writes the single-element sequence `[100]`. -/
theorem checkRateLimit_written_bounded_witness :
    ([100] : List Int).length ≤ RATE_LIMIT_MAX_REQUESTS :=
  checkRateLimit_written_bounded true 100 (.ok []) false [100] 70 (by decide)

set_option maxRecDepth 4000 in
/-- C3 counterexample: running the spec's end-to-end schedule (checks at
t = 0..19, then 20, then 61 for one identity, store initially absent), the
final check at t = 61 is admitted with `remaining = 1`, not 19: at t = 61
the pruning keeps the stored timestamps 2..19, so the new count is 19. -/
theorem simRun_t61_remaining_is_one :
    ((simRun [0, 1, 2, 3, 4, 5, 6, 7, 8, 9, 10, 11, 12, 13, 14, 15, 16, 17,
        18, 19, 20, 61] []).1.getLast?.map Decision.remaining) = some (some 1) ∧
    ¬ ((simRun [0, 1, 2, 3, 4, 5, 6, 7, 8, 9, 10, 11, 12, 13, 14, 15, 16, 17,
        18, 19, 20, 61] []).1.getLast?.map Decision.remaining) = some (some 19) := by
  decide

set_option maxRecDepth 4000 in
/-- C3 amended: one identity checks at t = 0..19 (all admitted), the 21st
check at t = 20 is rejected with `retryAfter = 40`, and the check at
simulated t = 61 is admitted with `remaining = 1` (the stored timestamps
2..19 are still inside the window at t = 61). -/
theorem simRun_scenario :
    (∀ d ∈ (simRun [0, 1, 2, 3, 4, 5, 6, 7, 8, 9, 10, 11, 12, 13, 14, 15, 16,
        17, 18, 19, 20, 61] []).1.take 20, d.allowed = true) ∧
    (simRun [0, 1, 2, 3, 4, 5, 6, 7, 8, 9, 10, 11, 12, 13, 14, 15, 16, 17, 18,
        19, 20, 61] []).1.get? 20 =
      some { allowed := false,
             error := some "Rate limit exceeded. Please try again later.",
             retryAfter := some 40, remaining := some 0 } ∧
    (simRun [0, 1, 2, 3, 4, 5, 6, 7, 8, 9, 10, 11, 12, 13, 14, 15, 16, 17, 18,
        19, 20, 61] []).1.get? 21 =
      some { allowed := true, remaining := some 1, resetAt := some 121 } := by
  decide

/-- C4: when the store read throws or yields a malformed value (`StoreRead.err`
for a throwing read or a value that makes the filter throw, `.ok []` for a
value whose `timestamps` field defaults away), or the attempted write
throws, `checkRateLimit` fails open: the returned decision has
`allowed = true`.  The embedding is a total function, so no exception
propagates to the caller on any input. -/
theorem checkRateLimit_failOpen (now : Int) (read : StoreRead) (putThrows : Bool)
    (h : read = .err ∨ read = .ok [] ∨
      (∃ stored, read = .ok stored ∧
        (stored.filter (fun ts => now - RATE_LIMIT_WINDOW_SECONDS < ts)).length <
          RATE_LIMIT_MAX_REQUESTS ∧ putThrows = true)) :
    (checkRateLimit true now read putThrows).decision.allowed = true := by
  rcases h with h | h | ⟨stored, hread, hlen, hput⟩
  · subst h; simp [checkRateLimit]
  · subst h
    cases putThrows <;> simp [checkRateLimit, RATE_LIMIT_MAX_REQUESTS]
  · subst hread; subst hput
    have hnot : ¬ (stored.filter (fun ts => now - RATE_LIMIT_WINDOW_SECONDS < ts)).length ≥
        RATE_LIMIT_MAX_REQUESTS := by omega
    simp [checkRateLimit, hnot]

/-- Concrete instance of `checkRateLimit_failOpen`: a throwing read at
`now = 0` still admits. -/
theorem checkRateLimit_failOpen_witness :
    (checkRateLimit true 0 .err false).decision.allowed = true :=
  checkRateLimit_failOpen 0 .err false (Or.inl rfl)

/-- C5 counterexample: with no backing store configured, the decision is the
bare `allowed = true` object: it carries neither `remaining` nor `resetAt`,
so not every admit decision has the claimed admit shape. -/
theorem checkRateLimit_degraded_bare_admit :
    (checkRateLimit false 0 (.ok []) false).decision.allowed = true ∧
    (checkRateLimit false 0 (.ok []) false).decision.remaining = none ∧
    (checkRateLimit false 0 (.ok []) false).decision.resetAt = none := by
  decide

/-- C5 amended: every decision has one of exactly four shapes — a full admit
carrying `remaining` and `resetAt` (normal admit path), a reject with an
error string, `retryAfter ≥ 1` and `remaining = 0`, a bare admit
`allowed = true` with no other field (degraded mode, store unconfigured),
or a fail-open admit carrying only an error string (store read/write
failure). -/
theorem checkRateLimit_decision_shapes (kvConfigured : Bool) (now : Int)
    (read : StoreRead) (putThrows : Bool) :
    (∃ r t, (checkRateLimit kvConfigured now read putThrows).decision =
        { allowed := true, remaining := some r, resetAt := some t }) ∨
    (∃ e ra, (checkRateLimit kvConfigured now read putThrows).decision =
        { allowed := false, error := some e, retryAfter := some ra,
          remaining := some 0 } ∧ 1 ≤ ra) ∨
    ((checkRateLimit kvConfigured now read putThrows).decision =
        { allowed := true }) ∨
    (∃ e, (checkRateLimit kvConfigured now read putThrows).decision =
        { allowed := true, error := some e }) := by
  cases kvConfigured with
  | false => exact Or.inr (Or.inr (Or.inl (by simp [checkRateLimit])))
  | true =>
      cases read with
      | err =>
          exact Or.inr (Or.inr (Or.inr
            ⟨"Rate limit check failed", by simp [checkRateLimit]⟩))
      | ok stored =>
          by_cases hlen : (stored.filter
              (fun ts => now - RATE_LIMIT_WINDOW_SECONDS < ts)).length ≥
              RATE_LIMIT_MAX_REQUESTS
          · exact Or.inr (Or.inl
              ⟨"Rate limit exceeded. Please try again later.",
               max 1 ((stored.filter
                 (fun ts => now - RATE_LIMIT_WINDOW_SECONDS < ts)).headI +
                 RATE_LIMIT_WINDOW_SECONDS - now),
               by simp [checkRateLimit, hlen], le_max_left _ _⟩)
          · cases putThrows with
            | true =>
                exact Or.inr (Or.inr (Or.inr
                  ⟨"Rate limit check failed", by simp [checkRateLimit, hlen]⟩))
            | false =>
                exact Or.inl
                  ⟨(RATE_LIMIT_MAX_REQUESTS : Int) -
                    ((stored.filter
                      (fun ts => now - RATE_LIMIT_WINDOW_SECONDS < ts)).length + 1),
                   now + RATE_LIMIT_WINDOW_SECONDS,
                   by simp [checkRateLimit, hlen]⟩

/-- C6: `verifyTurnstileToken` fails closed — it reports failure when the
token is missing/falsy, when the secret is unconfigured/falsy, when the
verification service reports failure, and when the network call or parse
throws; except that when the secret equals the local-dev sentinel it
reports success unconditionally, even for a missing token. -/
theorem verifyTurnstileToken_failClosed (token secretKey : Option String)
    (fetch : FetchResult) :
    (secretKey = some "SKIP_FOR_LOCAL_DEV" →
      (verifyTurnstileToken token secretKey fetch).success = true) ∧
    (secretKey ≠ some "SKIP_FOR_LOCAL_DEV" →
      (jsFalsy token = true ∨ jsFalsy secretKey = true ∨
        fetch = .err ∨ fetch = .ok false) →
      (verifyTurnstileToken token secretKey fetch).success = false) := by
  constructor
  · intro hs; simp [verifyTurnstileToken, hs]
  · intro hs hcase
    by_cases ht : jsFalsy token <;> by_cases hk : jsFalsy secretKey <;>
      rcases hcase with h | h | h | h <;>
        simp_all [verifyTurnstileToken]

/-- Concrete instances of `verifyTurnstileToken_failClosed`: the sentinel
secret bypasses verification even with no token; a missing token and a
throwing verification call each fail with a real secret. -/
theorem verifyTurnstileToken_failClosed_witness :
    (verifyTurnstileToken none (some "SKIP_FOR_LOCAL_DEV") .err).success = true ∧
    (verifyTurnstileToken none (some "real-secret") (.ok true)).success = false ∧
    (verifyTurnstileToken (some "tok") (some "real-secret") .err).success = false :=
  ⟨(verifyTurnstileToken_failClosed none (some "SKIP_FOR_LOCAL_DEV") .err).1 rfl,
   (verifyTurnstileToken_failClosed none (some "real-secret") (.ok true)).2
     (by decide) (Or.inl (by decide)),
   (verifyTurnstileToken_failClosed (some "tok") (some "real-secret") .err).2
     (by decide) (Or.inr (Or.inr (Or.inl rfl)))⟩

/-- C7: calling the lock's acquire while a holder identifier is non-null
rejects immediately with the in-progress error and changes no state: the
cached token is untouched, the holder is not replaced, and the rejected
caller gets no continuation (no queueing). -/
theorem getTurnstileTokenStart_inProgress (s : LockState) (freshId : String)
    (widgetPresent : Bool) (rid : String) (h : s.currentRequestId = some rid) :
    getTurnstileTokenStart s freshId widgetPresent = (.inProgressError, s) ∧
    (getTurnstileTokenStart s freshId widgetPresent).2.currentTurnstileToken =
      s.currentTurnstileToken ∧
    (getTurnstileTokenStart s freshId widgetPresent).2.currentRequestId = some rid := by
  refine ⟨?_, ?_, ?_⟩ <;> simp [getTurnstileTokenStart, h]

/-- Concrete instance of `getTurnstileTokenStart_inProgress`: a second
acquire while "a" holds the lock is rejected and leaves the state alone. -/
theorem getTurnstileTokenStart_inProgress_witness :
    getTurnstileTokenStart
      { currentTurnstileToken := some "cached", currentRequestId := some "a",
        buttonsEnabled := false } "b" true =
      (.inProgressError,
       { currentTurnstileToken := some "cached", currentRequestId := some "a",
         buttonsEnabled := false }) :=
  (getTurnstileTokenStart_inProgress
    { currentTurnstileToken := some "cached", currentRequestId := some "a",
      buttonsEnabled := false } "b" true "a" rfl).1

/-- C8: `completeRequest` clears the holder and re-enables buttons exactly
when the passed identifier equals the current holder; with a stale or
superseded identifier it is a no-op; and it is idempotent. -/
theorem completeRequest_release (s : LockState) (rid : String) :
    (s.currentRequestId = some rid →
      completeRequest s rid =
        { s with currentRequestId := none, buttonsEnabled := true }) ∧
    (s.currentRequestId ≠ some rid → completeRequest s rid = s) ∧
    completeRequest (completeRequest s rid) rid = completeRequest s rid := by
  refine ⟨fun h => by simp [completeRequest, h],
          fun h => by simp [completeRequest, h], ?_⟩
  by_cases h : s.currentRequestId = some rid <;> simp [completeRequest, h]

/-- Concrete instances of `completeRequest_release`: the owner "a" releases;
the stale id "b" does not. -/
theorem completeRequest_release_witness :
    completeRequest
      { currentTurnstileToken := some "t", currentRequestId := some "a",
        buttonsEnabled := false } "a" =
      { currentTurnstileToken := some "t", currentRequestId := none,
        buttonsEnabled := true } ∧
    completeRequest
      { currentTurnstileToken := some "t", currentRequestId := some "a",
        buttonsEnabled := false } "b" =
      { currentTurnstileToken := some "t", currentRequestId := some "a",
        buttonsEnabled := false } :=
  ⟨(completeRequest_release
      { currentTurnstileToken := some "t", currentRequestId := some "a",
        buttonsEnabled := false } "a").1 rfl,
   (completeRequest_release
      { currentTurnstileToken := some "t", currentRequestId := some "a",
        buttonsEnabled := false } "b").2.1 (by decide)⟩

/-- When the token never arrives (`tokenAt` constantly `none`), the polling
loop runs to the attempt cap and ends on the timeout branch, releasing the
lock exactly when the caller still holds it. -/
theorem getTurnstileTokenPoll_none_timeout (rid : String) (s : LockState) :
    ∀ fuel attempts : Nat, 0 < fuel → TURNSTILE_MAX_ATTEMPTS ≤ attempts + fuel →
    getTurnstileTokenPoll fuel attempts (fun _ => none) rid s =
      (.rejected "Turnstile verification timeout",
       if s.currentRequestId = some rid then
         { s with currentRequestId := none, buttonsEnabled := true }
       else s) := by
  intro fuel
  induction fuel with
  | zero => intro attempts hpos _; omega
  | succ f ih =>
      intro attempts _ hge
      unfold getTurnstileTokenPoll
      by_cases hmax : attempts + 1 ≥ TURNSTILE_MAX_ATTEMPTS
      · by_cases hc : s.currentRequestId = some rid <;> simp [hmax, hc]
      · have hf : 0 < f := by
          unfold TURNSTILE_MAX_ATTEMPTS at hmax hge; omega
        have hge' : TURNSTILE_MAX_ATTEMPTS ≤ (attempts + 1) + f := by omega
        simpa [hmax] using ih (attempts + 1) hf hge'

/-- C9: with no token arriving for the full 100 polls after an acquire whose
identifier is still the current holder, the acquisition rejects with the
timeout error, the holder is cleared and buttons re-enabled, and a fresh
acquire immediately afterwards starts (is not rejected as in-progress). -/
theorem getTurnstileToken_timeout_releases (s : LockState) (rid : String)
    (h : s.currentRequestId = some rid) :
    (getTurnstileTokenPoll TURNSTILE_MAX_ATTEMPTS 0 (fun _ => none) rid s).1 =
      .rejected "Turnstile verification timeout" ∧
    (getTurnstileTokenPoll TURNSTILE_MAX_ATTEMPTS 0 (fun _ => none) rid s).2.currentRequestId =
      none ∧
    (getTurnstileTokenPoll TURNSTILE_MAX_ATTEMPTS 0 (fun _ => none) rid s).2.buttonsEnabled =
      true ∧
    (∀ freshId,
      getTurnstileTokenStart
        (getTurnstileTokenPoll TURNSTILE_MAX_ATTEMPTS 0 (fun _ => none) rid s).2
        freshId true =
      (.started freshId,
       { currentTurnstileToken := none, currentRequestId := some freshId,
         buttonsEnabled := false })) := by
  have hrun := getTurnstileTokenPoll_none_timeout rid s TURNSTILE_MAX_ATTEMPTS 0
    (by decide) (by omega)
  rw [hrun]
  simp [h, getTurnstileTokenStart]

/-- Concrete instance of `getTurnstileToken_timeout_releases`: holder "a"
times out and the lock is free again. -/
theorem getTurnstileToken_timeout_releases_witness :
    (getTurnstileTokenPoll TURNSTILE_MAX_ATTEMPTS 0 (fun _ => none) "a"
      { currentTurnstileToken := none, currentRequestId := some "a",
        buttonsEnabled := false }).2.currentRequestId = none :=
  (getTurnstileToken_timeout_releases
    { currentTurnstileToken := none, currentRequestId := some "a",
      buttonsEnabled := false } "a" rfl).2.1
